import Mathlib

set_option autoImplicit false

/-!
Shallow embedding of the Kingdom-System authentication service
(`Services/Mikhail`): token storage, rate limiting, the rotation worker,
the refresh/sign-up/sign-in request handlers, and the Redis cipher layer.

Time is modelled as `Int` (seconds); randomness (token generation, AEAD
nonces) and upstream HTTP responses are passed in as explicit oracle
arguments.  Go maps are modelled as association lists; the Go runtime's
map-key uniqueness appears as `Nodup` hypotheses where a proof needs it.
-/

/-- Mirror of `oauth2.Token` (the fields this service reads and writes). -/
structure OAuth2Token where
  AccessToken : String
  RefreshToken : String
  Expiry : Int
  deriving DecidableEq, Repr

/-- Mirror of `TokenInfo` in `server.go`. -/
structure TokenInfo where
  UserID : String
  PhoneNumber : String
  CreatedAt : Int
  ExpiresAt : Int
  IsYandexUser : Bool
  YandexToken : Option OAuth2Token
  deriving DecidableEq, Repr

/-- Mirror of `InMemoryTokenStorage`: the `tokens` map as an association
list plus the `maxSize` capacity ceiling. -/
structure InMemoryTokenStorage where
  tokens : List (String × TokenInfo)
  maxSize : Nat
  deriving DecidableEq, Repr

/-- Lookup in the association list modelling a Go map read. -/
def lookupTok : List (String × TokenInfo) → String → Option TokenInfo
  | [], _ => none
  | (k, i) :: rest, t => if k = t then some i else lookupTok rest t

/-- Mirror of `NewInMemoryTokenStorage`: empty map, `maxSize = 10000`. -/
def NewInMemoryTokenStorage : InMemoryTokenStorage :=
  { tokens := [], maxSize := 10000 }

/-- Mirror of `InMemoryTokenStorage.StoreRefreshToken`: reject at capacity,
reject missing required fields, otherwise write the map entry. -/
def StoreRefreshToken (s : InMemoryTokenStorage) (token : String)
    (info : TokenInfo) : Except String InMemoryTokenStorage :=
  if s.maxSize ≤ s.tokens.length then
    .error "token storage is at capacity"
  else if info.UserID = "" ∨ info.PhoneNumber = "" then
    .error "invalid token info: missing required fields"
  else
    .ok { s with tokens := (token, info) :: s.tokens.filter (fun p => decide (p.1 ≠ token)) }

/-- Mirror of `InMemoryTokenStorage.GetTokenInfo`. -/
def GetTokenInfo (s : InMemoryTokenStorage) (token : String) :
    Except String TokenInfo :=
  match lookupTok s.tokens token with
  | some info => .ok info
  | none => .error "token not found"

/-- Mirror of `InMemoryTokenStorage.DeleteToken` (the Go method always
returns a nil error). -/
def DeleteToken (s : InMemoryTokenStorage) (token : String) :
    InMemoryTokenStorage :=
  { s with tokens := s.tokens.filter (fun p => decide (p.1 ≠ token)) }

/-- Mirror of one tick of `cleanupExpiredTokens`: delete every entry whose
`ExpiresAt` lies strictly in the past (`now.After(info.ExpiresAt)`). -/
def cleanupExpiredTokens (s : InMemoryTokenStorage) (now : Int) :
    InMemoryTokenStorage :=
  { s with tokens := s.tokens.filter (fun p => !decide (p.2.ExpiresAt < now)) }

/-- The `TokenStorage` Go interface, as a record of state transformers on a
backend state `σ`. -/
structure TokenStorageOps (σ : Type) where
  store : σ → String → TokenInfo → Except String σ
  get : σ → String → Except String TokenInfo
  delete : σ → String → Except String σ

/-- The in-memory backend as an instance of the storage interface. -/
def inMemoryOps : TokenStorageOps InMemoryTokenStorage :=
  { store := StoreRefreshToken
  , get := GetTokenInfo
  , delete := fun s k => .ok (DeleteToken s k) }

/-- Mirror of `RateLimiter`: per-key timestamp lists, window, limit. -/
structure RateLimiter where
  requests : String → List Int
  window : Int
  limit : Nat

/-- Mirror of `RateLimiter.Allow`: drop timestamps at or before
`now - window`, reject (recording only the pruned list) once the survivor
count reaches the limit, otherwise record `now` and admit. -/
def RateLimiter.Allow (rl : RateLimiter) (key : String) (now : Int) :
    Bool × RateLimiter :=
  let windowStart := now - rl.window
  let validRequests := (rl.requests key).filter (fun t => decide (windowStart < t))
  if rl.limit ≤ validRequests.length then
    (false, { rl with requests := fun k => if k = key then validRequests else rl.requests k })
  else
    (true, { rl with requests := fun k => if k = key then validRequests ++ [now] else rl.requests k })

/-- Mirror of `tokenUpdateRequest`: one queued rotation. -/
structure tokenUpdateRequest where
  oldToken : String
  newToken : String
  info : TokenInfo
  deriving DecidableEq, Repr

/-- Mirror of one iteration of `tokenUpdateWorker`: store the new token
first; on store failure log and continue (state untouched); on success
delete the old token, a delete failure being logged but non-fatal. -/
def tokenUpdateWorkerStep {σ : Type} (ops : TokenStorageOps σ) (st : σ)
    (u : tokenUpdateRequest) : σ :=
  match ops.store st u.newToken u.info with
  | .error _ => st
  | .ok st1 =>
    match ops.delete st1 u.oldToken with
    | .error _ => st1
    | .ok st2 => st2

/-- Mirror of `tokenUpdateWorker` draining its channel in FIFO order. -/
def tokenUpdateWorker {σ : Type} (ops : TokenStorageOps σ) (st : σ)
    (queue : List tokenUpdateRequest) : σ :=
  queue.foldl (tokenUpdateWorkerStep ops) st

/-- Mirror of `generate_auth_token`: the phone number and password hash
arguments are ignored; the result is the base64 encoding of 32 random
bytes, modelled by the oracle argument `rand`. -/
def generate_auth_token (_PhoneNumber : String) (_PasswordHash : String)
    (rand : String) : String :=
  rand

/-- Mirror of `generate_refresh_token`: base64 of 32 fresh random bytes,
modelled by the oracle argument `rand`. -/
def generate_refresh_token (rand : String) : String :=
  rand

/-- Mirror of the decoded Yandex token-endpoint response body. -/
structure YandexTokenResponse where
  access_token : String
  refresh_token : String
  expires_in : Int
  deriving DecidableEq, Repr

/-- Mirror of `refreshYandexToken`: fail on a missing stored refresh
token, a non-200 status, or an undecodable body; otherwise build the new
credential, falling back to the old refresh-token value when the upstream
omits one.  The HTTP exchange is modelled by the `status`/`body` oracle
arguments. -/
def refreshYandexToken (yandexToken : OAuth2Token) (status : Nat)
    (body : Option YandexTokenResponse) (now : Int) :
    Except String OAuth2Token :=
  if yandexToken.RefreshToken = "" then
    .error "no refresh token provided in yandexToken"
  else if status ≠ 200 then
    .error "yandex token refresh failed"
  else
    match body with
    | none => .error "failed to decode Yandex token response"
    | some r =>
      let newRefreshToken :=
        if r.refresh_token = "" then yandexToken.RefreshToken else r.refresh_token
      .ok { AccessToken := r.access_token
          , RefreshToken := newRefreshToken
          , Expiry := now + r.expires_in }

/-- Mirror of `AuthServer`: storage state, pending rotation queue
(the `tokenUpdateChan` contents), and the rate limiter. -/
structure AuthServer (σ : Type) where
  storage : σ
  tokenUpdateQueue : List tokenUpdateRequest
  rateLimiter : RateLimiter

/-- Result of a handler: either a typed error message or a token triple
(`AuthToken`, `RefreshToken`, `ExpiresAt`). -/
inductive RefreshResult where
  | err (msg : String)
  | ok (authToken : String) (refreshToken : String) (expiresAt : Int)
  deriving DecidableEq, Repr

/-- Mirror of `AuthServer.RefreshToken`: rate-limit first, then reject an
empty token, then fetch the session; an expired session is deleted and
rejected; a Yandex session is refreshed upstream (its result becoming the
new token values); a local session gets freshly generated tokens with a
24-hour expiry; finally the rotation is enqueued for the worker.  Fresh
randomness and the upstream HTTP response are oracle arguments. -/
def AuthServer.RefreshToken {σ : Type} (ops : TokenStorageOps σ) (s : AuthServer σ)
    (reqToken : String) (now : Int) (freshAuth freshRefresh : String)
    (status : Nat) (body : Option YandexTokenResponse) :
    RefreshResult × AuthServer σ :=
  let res := s.rateLimiter.Allow reqToken now
  let s1 : AuthServer σ := { s with rateLimiter := res.2 }
  if res.1 = false then
    (.err "rate limit exceeded", s1)
  else if reqToken = "" then
    (.err "refresh token is required", s1)
  else
    match ops.get s1.storage reqToken with
    | .error _ => (.err "invalid refresh token", s1)
    | .ok tokenInfo =>
      if tokenInfo.ExpiresAt < now then
        let st2 :=
          match ops.delete s1.storage reqToken with
          | .ok st => st
          | .error _ => s1.storage
        (.err "refresh token expired", { s1 with storage := st2 })
      else
        if tokenInfo.IsYandexUser then
          match tokenInfo.YandexToken with
          | none => (.err "invalid Yandex token state", s1)
          | some ytok =>
            match refreshYandexToken ytok status body now with
            | .error _ => (.err "failed to refresh Yandex token", s1)
            | .ok newYandexToken =>
              let newTokenInfo : TokenInfo :=
                { UserID := tokenInfo.UserID
                , PhoneNumber := tokenInfo.PhoneNumber
                , CreatedAt := now
                , ExpiresAt := newYandexToken.Expiry
                , IsYandexUser := tokenInfo.IsYandexUser
                , YandexToken := some newYandexToken }
              (.ok newYandexToken.AccessToken newYandexToken.RefreshToken newYandexToken.Expiry,
               { s1 with tokenUpdateQueue := s1.tokenUpdateQueue ++
                   [{ oldToken := reqToken
                    , newToken := newYandexToken.RefreshToken
                    , info := newTokenInfo }] })
        else
          let newAuthToken := generate_auth_token tokenInfo.PhoneNumber "" freshAuth
          let newRefreshToken := generate_refresh_token freshRefresh
          let expiry := now + 24 * 3600
          let newTokenInfo : TokenInfo :=
            { UserID := tokenInfo.UserID
            , PhoneNumber := tokenInfo.PhoneNumber
            , CreatedAt := now
            , ExpiresAt := expiry
            , IsYandexUser := tokenInfo.IsYandexUser
            , YandexToken := none }
          (.ok newAuthToken newRefreshToken expiry,
           { s1 with tokenUpdateQueue := s1.tokenUpdateQueue ++
               [{ oldToken := reqToken
                , newToken := newRefreshToken
                , info := newTokenInfo }] })

/-- The `TokenInfo` record built by `SignUp` and `SignIn`: the phone
number doubles as the user id, 30-day session expiry. -/
def signUpTokenInfo (phoneNumber : String) (now : Int) : TokenInfo :=
  { UserID := phoneNumber
  , PhoneNumber := phoneNumber
  , CreatedAt := now
  , ExpiresAt := now + 30 * 24 * 3600
  , IsYandexUser := false
  , YandexToken := none }

/-- Mirror of `AuthServer.SignUp`: generate tokens (no credential check of
any kind), store the session, surface a storage failure, otherwise return
the pair with a 24-hour auth-token expiry. -/
def AuthServer.SignUp {σ : Type} (ops : TokenStorageOps σ) (s : AuthServer σ)
    (phoneNumber passwordHash : String) (now : Int)
    (freshAuth freshRefresh : String) : RefreshResult × AuthServer σ :=
  let authToken := generate_auth_token phoneNumber passwordHash freshAuth
  let refreshToken := generate_refresh_token freshRefresh
  let tokenInfo := signUpTokenInfo phoneNumber now
  match ops.store s.storage refreshToken tokenInfo with
  | .error _ => (.err "failed to store refresh token", s)
  | .ok st => (.ok authToken refreshToken (now + 24 * 3600), { s with storage := st })

/-- Mirror of `AuthServer.SignIn` (identical logic to `SignUp`). -/
def AuthServer.SignIn {σ : Type} (ops : TokenStorageOps σ) (s : AuthServer σ)
    (phoneNumber passwordHash : String) (now : Int)
    (freshAuth freshRefresh : String) : RefreshResult × AuthServer σ :=
  let authToken := generate_auth_token phoneNumber passwordHash freshAuth
  let refreshToken := generate_refresh_token freshRefresh
  let tokenInfo := signUpTokenInfo phoneNumber now
  match ops.store s.storage refreshToken tokenInfo with
  | .error _ => (.err "failed to store refresh token", s)
  | .ok st => (.ok authToken refreshToken (now + 24 * 3600), { s with storage := st })

/-- An AEAD scheme as the Redis storage layer sees it: `sealC`/`openC`
model `gcm.Seal`/`gcm.Open` on byte sequences with an explicit nonce. -/
structure AEAD where
  nonceSize : Nat
  sealC : List Nat → List Nat → List Nat
  openC : List Nat → List Nat → Except String (List Nat)

/-- Mirror of `RedisTokenStorage.encrypt`: a fresh nonce (oracle argument)
is prepended to the sealed payload. -/
def RedisTokenStorage.encrypt (g : AEAD) (nonce : List Nat)
    (data : List Nat) : List Nat :=
  nonce ++ g.sealC nonce data

/-- Mirror of `RedisTokenStorage.decrypt`: reject inputs shorter than the
nonce, otherwise split off the nonce prefix and open the rest. -/
def RedisTokenStorage.decrypt (g : AEAD) (data : List Nat) :
    Except String (List Nat) :=
  if data.length < g.nonceSize then .error "ciphertext too short"
  else g.openC (data.take g.nonceSize) (data.drop g.nonceSize)

-- Concrete instances used to evaluate the claims on explicit inputs.

/-- A fresh rate limiter with window 1 and limit 2 (the spec's example). -/
def c5rl0 : RateLimiter := { requests := fun _ => [], window := 1, limit := 2 }

/-- First `allow("x")` call at time 0. -/
def c5call1 : Bool × RateLimiter := c5rl0.Allow "x" 0

/-- Second `allow("x")` call, still at time 0. -/
def c5call2 : Bool × RateLimiter := c5call1.2.Allow "x" 0

/-- Third `allow("x")` call, still inside the window. -/
def c5call3 : Bool × RateLimiter := c5call2.2.Allow "x" 0

/-- Fourth `allow("x")` call after the window has elapsed. -/
def c5call4 : Bool × RateLimiter := c5call3.2.Allow "x" 2

/-- A stored session record with non-empty required fields. -/
def cTokInfo : TokenInfo :=
  { UserID := "u", PhoneNumber := "p", CreatedAt := 0, ExpiresAt := 1000
  , IsYandexUser := false, YandexToken := none }

/-- A session record that expired at time 5. -/
def cExpiredInfo : TokenInfo :=
  { UserID := "u", PhoneNumber := "p", CreatedAt := 0, ExpiresAt := 5
  , IsYandexUser := false, YandexToken := none }

/-- The stored upstream credential of a Yandex session, with refresh-token
value "R". -/
def c2yOld : OAuth2Token := { AccessToken := "OLD_AT", RefreshToken := "R", Expiry := 500 }

/-- A live Yandex session wrapping `c2yOld`. -/
def c2info : TokenInfo :=
  { UserID := "U", PhoneNumber := "P", CreatedAt := 0, ExpiresAt := 1000
  , IsYandexUser := true, YandexToken := some c2yOld }

/-- A server holding the Yandex session under key "K". -/
def c2s0 : AuthServer InMemoryTokenStorage :=
  { storage := { tokens := [("K", c2info)], maxSize := 10000 }
  , tokenUpdateQueue := []
  , rateLimiter := { requests := fun _ => [], window := 60, limit := 60 } }

/-- An upstream success response that omits the refresh token. -/
def c2resp : YandexTokenResponse :=
  { access_token := "A", refresh_token := "", expires_in := 100 }

/-- A freshly constructed server with empty storage. -/
def c3s0 : AuthServer InMemoryTokenStorage :=
  { storage := NewInMemoryTokenStorage
  , tokenUpdateQueue := []
  , rateLimiter := { requests := fun _ => [], window := 60, limit := 60 } }

/-- A server holding the already-expired session `cExpiredInfo` under
key "K". -/
def c4s0 : AuthServer InMemoryTokenStorage :=
  { storage := { tokens := [("K", cExpiredInfo)], maxSize := 10000 }
  , tokenUpdateQueue := []
  , rateLimiter := { requests := fun _ => [], window := 60, limit := 60 } }

/-- A trivial AEAD instance (identity cipher) used only to evaluate the
round-trip theorem on a concrete input. -/
def c6g0 : AEAD :=
  { nonceSize := 2, sealC := fun _ p => p, openC := fun _ c => .ok c }

/-- A server holding the live local (non-Yandex) session `cTokInfo` under
key "K". -/
def c2sLocal : AuthServer InMemoryTokenStorage :=
  { storage := { tokens := [("K", cTokInfo)], maxSize := 10000 }
  , tokenUpdateQueue := []
  , rateLimiter := { requests := fun _ => [], window := 60, limit := 60 } }

/-- A freshly constructed server used to evaluate sign-up and sign-in. -/
def c9s0 : AuthServer InMemoryTokenStorage :=
  { storage := NewInMemoryTokenStorage
  , tokenUpdateQueue := []
  , rateLimiter := { requests := fun _ => [], window := 60, limit := 60 } }

/-- A storage backend whose delete always fails, exercising the
delete-failure branch of the rotation worker. -/
def c1failOps : TokenStorageOps Unit :=
  { store := fun _ _ _ => .ok ()
  , get := fun _ _ => .error "token not found"
  , delete := fun _ _ => .error "delete failed" }

/-- A rotation request from key "old" to key "new". -/
def c1req : tokenUpdateRequest := { oldToken := "old", newToken := "new", info := cTokInfo }

/-- An in-memory store at capacity (ceiling 0). -/
def cFullStore : InMemoryTokenStorage := { tokens := [], maxSize := 0 }

/-- An in-memory store holding the rotation's old key. -/
def c1store : InMemoryTokenStorage := { tokens := [("old", cTokInfo)], maxSize := 10000 }

-- Lookup lemmas shared by several claims.

theorem lookupTok_cons (k : String) (i : TokenInfo)
    (rest : List (String × TokenInfo)) (t : String) :
    lookupTok ((k, i) :: rest) t = if k = t then some i else lookupTok rest t := rfl

theorem lookupTok_filter_self (l : List (String × TokenInfo)) (t : String) :
    lookupTok (l.filter (fun p => decide (p.1 ≠ t))) t = none := by
  induction l with
  | nil => rfl
  | cons hd tl ih =>
    obtain ⟨k1, i1⟩ := hd
    simp only [List.filter_cons]
    by_cases h : k1 = t
    · rw [if_neg (by simp [h])]
      exact ih
    · rw [if_pos (by simp [h]), lookupTok_cons, if_neg h]
      exact ih

theorem lookupTok_filter_ne (l : List (String × TokenInfo)) (k t : String)
    (h : k ≠ t) :
    lookupTok (l.filter (fun p => decide (p.1 ≠ t))) k = lookupTok l k := by
  induction l with
  | nil => rfl
  | cons hd tl ih =>
    obtain ⟨k1, i1⟩ := hd
    simp only [List.filter_cons]
    by_cases h1 : k1 = t
    · have h2 : k1 ≠ k := by rw [h1]; exact fun hk => h hk.symm
      rw [if_neg (by simp [h1]), lookupTok_cons, if_neg h2]
      exact ih
    · by_cases h2 : k1 = k
      · rw [if_pos (by simp [h1]), lookupTok_cons, if_pos h2, lookupTok_cons, if_pos h2]
      · rw [if_pos (by simp [h1]), lookupTok_cons, if_neg h2, lookupTok_cons, if_neg h2]
        exact ih

theorem lookupTok_eq_none_of_not_mem (l : List (String × TokenInfo))
    (k : String) (h : k ∉ l.map Prod.fst) : lookupTok l k = none := by
  induction l with
  | nil => rfl
  | cons hd tl ih =>
    obtain ⟨k1, i1⟩ := hd
    simp only [List.map, List.mem_cons, not_or] at h
    rw [lookupTok_cons, if_neg (fun he => h.1 he.symm)]
    exact ih h.2

theorem lookupTok_sweep_none (l : List (String × TokenInfo)) (k : String)
    (i : TokenInfo) (now : Int) (hn : (l.map Prod.fst).Nodup)
    (hl : lookupTok l k = some i) (he : i.ExpiresAt < now) :
    lookupTok (l.filter (fun p => !decide (p.2.ExpiresAt < now))) k = none := by
  induction l with
  | nil => simp [lookupTok] at hl
  | cons hd tl ih =>
    obtain ⟨k1, i1⟩ := hd
    rw [lookupTok_cons] at hl
    simp only [List.map_cons, List.nodup_cons] at hn
    simp only [List.filter_cons]
    by_cases h1 : k1 = k
    · rw [if_pos h1] at hl
      injection hl with hi
      subst hi
      rw [if_neg (by simp [he])]
      apply lookupTok_eq_none_of_not_mem
      intro hmem
      rcases List.mem_map.mp hmem with ⟨p, hp, hpk⟩
      exact hn.1 (h1 ▸ List.mem_map.mpr ⟨p, List.mem_of_mem_filter hp, hpk⟩)
    · rw [if_neg h1] at hl
      by_cases h2 : i1.ExpiresAt < now
      · rw [if_neg (by simp [h2])]
        exact ih hn.2 hl
      · rw [if_pos (by simp [h2]), lookupTok_cons, if_neg h1]
        exact ih hn.2 hl

-- Claim theorems.

/-- C5: with window 1 and limit 2, three allow("x") calls within the
window return true, true, false; the rejected third call records no
timestamp (the per-key list after it equals the list after the second
call); and a call after the window has elapsed returns true again. -/
theorem c5_rate_limiter_window :
    c5call1.1 = true ∧ c5call2.1 = true ∧ c5call3.1 = false ∧
    c5call3.2.requests "x" = c5call2.2.requests "x" ∧
    c5call4.1 = true := by
  decide

/-- C8: a put against an in-memory store already at its capacity ceiling
is rejected with the capacity error (and returns no new state, so the
store is unchanged); and any successful put keeps the record count at or
below the unchanged capacity ceiling. -/
theorem c8_capacity_ceiling :
    (∀ (s : InMemoryTokenStorage) (k : String) (i : TokenInfo),
       s.maxSize ≤ s.tokens.length →
       StoreRefreshToken s k i = .error "token storage is at capacity") ∧
    (∀ (s : InMemoryTokenStorage) (k : String) (i : TokenInfo)
       (s' : InMemoryTokenStorage),
       StoreRefreshToken s k i = .ok s' →
       s'.maxSize = s.maxSize ∧ s'.tokens.length ≤ s.maxSize) := by
  constructor
  · intro s k i h
    simp [StoreRefreshToken, h]
  · intro s k i s' h
    unfold StoreRefreshToken at h
    by_cases h1 : s.maxSize ≤ s.tokens.length
    · simp [h1] at h
    · rw [if_neg h1] at h
      by_cases h2 : i.UserID = "" ∨ i.PhoneNumber = ""
      · simp [h2] at h
      · rw [if_neg h2] at h
        cases h
        refine ⟨rfl, ?_⟩
        have hf : (s.tokens.filter (fun p => decide (p.1 ≠ k))).length ≤ s.tokens.length :=
          List.length_filter_le _ _
        have h3 : s.tokens.length < s.maxSize := Nat.lt_of_not_le h1
        simp only [List.length_cons]
        omega

/-- C8 witness: a store with ceiling 0 rejects a put; a put into a store
with ceiling 1 succeeds and the resulting count stays within the ceiling. -/
theorem c8_capacity_ceiling_witness :
    StoreRefreshToken cFullStore "k" cTokInfo = .error "token storage is at capacity" ∧
    ((⟨[("k", cTokInfo)], 1⟩ : InMemoryTokenStorage).maxSize =
       (⟨[], 1⟩ : InMemoryTokenStorage).maxSize ∧
     (⟨[("k", cTokInfo)], 1⟩ : InMemoryTokenStorage).tokens.length ≤
       (⟨[], 1⟩ : InMemoryTokenStorage).maxSize) :=
  ⟨c8_capacity_ceiling.1 cFullStore "k" cTokInfo (by decide),
   c8_capacity_ceiling.2 ⟨[], 1⟩ "k" cTokInfo ⟨[("k", cTokInfo)], 1⟩ rfl⟩

/-- C10: the in-memory get ignores expiry: a stored record whose
`ExpiresAt` is already in the past is still returned; the record
disappears only when the cleanup sweep runs (given the Go map's key
uniqueness) or when it is explicitly deleted. -/
theorem c10_get_ignores_expiry :
    ∀ (s : InMemoryTokenStorage) (k : String) (i : TokenInfo) (now : Int),
      lookupTok s.tokens k = some i → i.ExpiresAt < now →
      GetTokenInfo s k = .ok i ∧
      ((s.tokens.map Prod.fst).Nodup →
        lookupTok (cleanupExpiredTokens s now).tokens k = none) ∧
      lookupTok (DeleteToken s k).tokens k = none := by
  intro s k i now hl he
  refine ⟨?_, ?_, ?_⟩
  · simp [GetTokenInfo, hl]
  · intro hn
    exact lookupTok_sweep_none s.tokens k i now hn hl he
  · exact lookupTok_filter_self s.tokens k

/-- C10 witness: evaluation on a store holding a session expired at
time 5, read at time 10. -/
theorem c10_get_ignores_expiry_witness :
    GetTokenInfo ⟨[("K", cExpiredInfo)], 10000⟩ "K" = .ok cExpiredInfo ∧
    lookupTok (cleanupExpiredTokens ⟨[("K", cExpiredInfo)], 10000⟩ 10).tokens "K" = none ∧
    lookupTok (DeleteToken ⟨[("K", cExpiredInfo)], 10000⟩ "K").tokens "K" = none := by
  have h := c10_get_ignores_expiry ⟨[("K", cExpiredInfo)], 10000⟩ "K" cExpiredInfo 10
    rfl (by decide)
  exact ⟨h.1, h.2.1 (by decide), h.2.2⟩

/-- C7: when the upstream returns a 200 response whose body omits the
refresh token, the rebuilt credential carries the previous refresh-token
value unchanged (access token and expiry taken from the response). -/
theorem c7_upstream_preserves_refresh_token :
    ∀ (yandexToken : OAuth2Token) (r : YandexTokenResponse) (now : Int),
      yandexToken.RefreshToken ≠ "" → r.refresh_token = "" →
      refreshYandexToken yandexToken 200 (some r) now =
        .ok { AccessToken := r.access_token
            , RefreshToken := yandexToken.RefreshToken
            , Expiry := now + r.expires_in } := by
  intro yt r now h1 h2
  simp [refreshYandexToken, h1, h2]

/-- C7 witness: evaluation on a concrete credential and response. -/
theorem c7_upstream_preserves_refresh_token_witness :
    refreshYandexToken c2yOld 200 (some c2resp) 10 =
      .ok { AccessToken := "A", RefreshToken := "R", Expiry := 110 } :=
  c7_upstream_preserves_refresh_token c2yOld c2resp 10 (by decide) rfl

/-- C6: for an AEAD whose open inverts its seal, decrypt inverts encrypt:
the fresh nonce prepended by encrypt is stripped back off by its fixed
prefix length and the payload round-trips. -/
theorem c6_encrypt_decrypt_roundtrip :
    ∀ (g : AEAD),
      (∀ (n p : List Nat), n.length = g.nonceSize → g.openC n (g.sealC n p) = .ok p) →
      ∀ (nonce plaintext : List Nat), nonce.length = g.nonceSize →
      RedisTokenStorage.decrypt g (RedisTokenStorage.encrypt g nonce plaintext) =
        .ok plaintext := by
  intro g hg nonce p hn
  unfold RedisTokenStorage.encrypt RedisTokenStorage.decrypt
  rw [if_neg]
  · rw [← hn, List.take_left, List.drop_left]
    exact hg nonce p hn
  · rw [List.length_append, ← hn]
    omega

/-- C6 witness: evaluation with the identity AEAD instance on a concrete
nonce and plaintext. -/
theorem c6_encrypt_decrypt_roundtrip_witness :
    RedisTokenStorage.decrypt c6g0 (RedisTokenStorage.encrypt c6g0 [0, 1] [5, 6, 7]) =
      .ok [5, 6, 7] :=
  c6_encrypt_decrypt_roundtrip c6g0 (fun _ _ _ => rfl) [0, 1] [5, 6, 7] rfl

/-- C1: the rotation worker drains its queue in order; for each request it
stores the new session first — a failed store abandons the rotation with
the state (hence the old key) untouched; a delete failure after a
successful store is non-fatal (the new session stays stored); and on the
in-memory backend a successful store is followed by the delete of the old
key, leaving the new key present and the old key absent. -/
theorem c1_rotation_worker_order :
    (∀ (σ : Type) (ops : TokenStorageOps σ) (st : σ) (u : tokenUpdateRequest)
       (rest : List tokenUpdateRequest),
       tokenUpdateWorker ops st (u :: rest) =
         tokenUpdateWorker ops (tokenUpdateWorkerStep ops st u) rest) ∧
    (∀ (σ : Type) (ops : TokenStorageOps σ) (st : σ) (u : tokenUpdateRequest)
       (e : String),
       ops.store st u.newToken u.info = .error e →
       tokenUpdateWorkerStep ops st u = st) ∧
    (∀ (σ : Type) (ops : TokenStorageOps σ) (st st1 : σ) (u : tokenUpdateRequest)
       (e : String),
       ops.store st u.newToken u.info = .ok st1 →
       ops.delete st1 u.oldToken = .error e →
       tokenUpdateWorkerStep ops st u = st1) ∧
    (∀ (s s1 : InMemoryTokenStorage) (u : tokenUpdateRequest),
       StoreRefreshToken s u.newToken u.info = .ok s1 →
       u.oldToken ≠ u.newToken →
       lookupTok (tokenUpdateWorkerStep inMemoryOps s u).tokens u.newToken = some u.info ∧
       lookupTok (tokenUpdateWorkerStep inMemoryOps s u).tokens u.oldToken = none) := by
  refine ⟨?_, ?_, ?_, ?_⟩
  · intro σ ops st u rest
    rfl
  · intro σ ops st u e h
    simp [tokenUpdateWorkerStep, h]
  · intro σ ops st st1 u e h1 h2
    simp [tokenUpdateWorkerStep, h1, h2]
  · intro s s1 u hstore hne
    have hstep : tokenUpdateWorkerStep inMemoryOps s u = DeleteToken s1 u.oldToken := by
      simp [tokenUpdateWorkerStep, inMemoryOps, hstore]
    have hs1 : s1.tokens =
        (u.newToken, u.info) :: s.tokens.filter (fun p => decide (p.1 ≠ u.newToken)) := by
      unfold StoreRefreshToken at hstore
      by_cases h1 : s.maxSize ≤ s.tokens.length
      · simp [h1] at hstore
      · rw [if_neg h1] at hstore
        by_cases h2 : u.info.UserID = "" ∨ u.info.PhoneNumber = ""
        · simp [h2] at hstore
        · rw [if_neg h2] at hstore
          cases hstore
          rfl
    rw [hstep]
    simp only [DeleteToken]
    constructor
    · rw [hs1, lookupTok_filter_ne _ _ _ (Ne.symm hne), lookupTok_cons, if_pos rfl]
    · rw [hs1]
      exact lookupTok_filter_self _ _

/-- C1 witness: evaluation of all four parts on concrete stores — a FIFO
step, a store at capacity (rotation abandoned), a backend whose delete
fails (non-fatal), and a successful in-memory rotation from "old" to
"new". -/
theorem c1_rotation_worker_order_witness :
    tokenUpdateWorker inMemoryOps c1store [c1req] =
      tokenUpdateWorker inMemoryOps (tokenUpdateWorkerStep inMemoryOps c1store c1req) [] ∧
    tokenUpdateWorkerStep inMemoryOps cFullStore c1req = cFullStore ∧
    tokenUpdateWorkerStep c1failOps () c1req = () ∧
    (lookupTok (tokenUpdateWorkerStep inMemoryOps c1store c1req).tokens "new" = some cTokInfo ∧
     lookupTok (tokenUpdateWorkerStep inMemoryOps c1store c1req).tokens "old" = none) :=
  ⟨c1_rotation_worker_order.1 InMemoryTokenStorage inMemoryOps c1store c1req [],
   c1_rotation_worker_order.2.1 InMemoryTokenStorage inMemoryOps cFullStore c1req
     "token storage is at capacity" rfl,
   c1_rotation_worker_order.2.2.1 Unit c1failOps () () c1req "delete failed" rfl rfl,
   c1_rotation_worker_order.2.2.2 c1store
     ⟨[("new", cTokInfo), ("old", cTokInfo)], 10000⟩ c1req rfl (by decide)⟩

/-- C4: presenting the key of a stored-but-expired session (when the rate
limiter admits the call and the key is non-empty) yields the expiry error
and deletes the stale key, so the token is absent from the store
afterwards. -/
theorem c4_expired_refresh_deletes :
    ∀ (s : AuthServer InMemoryTokenStorage) (k : String) (i : TokenInfo)
      (now : Int) (freshAuth freshRefresh : String) (status : Nat)
      (body : Option YandexTokenResponse),
      (s.rateLimiter.Allow k now).1 = true →
      k ≠ "" →
      GetTokenInfo s.storage k = .ok i →
      i.ExpiresAt < now →
      (AuthServer.RefreshToken inMemoryOps s k now freshAuth freshRefresh status body).1 =
        .err "refresh token expired" ∧
      lookupTok
        (AuthServer.RefreshToken inMemoryOps s k now freshAuth freshRefresh status body).2.storage.tokens
        k = none := by
  intro s k i now fa fr status body hA hk hget hexp
  have hres : AuthServer.RefreshToken inMemoryOps s k now fa fr status body =
      (.err "refresh token expired",
       { storage := DeleteToken s.storage k
       , tokenUpdateQueue := s.tokenUpdateQueue
       , rateLimiter := (s.rateLimiter.Allow k now).2 }) := by
    simp [AuthServer.RefreshToken, hA, hk, inMemoryOps, hget, hexp]
  rw [hres]
  exact ⟨rfl, lookupTok_filter_self _ _⟩

/-- C4 witness: evaluation on a server storing a session expired at time
5, refreshed at time 10. -/
theorem c4_expired_refresh_deletes_witness :
    (AuthServer.RefreshToken inMemoryOps c4s0 "K" 10 "a" "r" 200 none).1 =
      .err "refresh token expired" ∧
    lookupTok (AuthServer.RefreshToken inMemoryOps c4s0 "K" 10 "a" "r" 200 none).2.storage.tokens
      "K" = none :=
  c4_expired_refresh_deletes c4s0 "K" cExpiredInfo 10 "a" "r" 200 none
    (by decide) (by decide) rfl (by decide)

/-- C3 counterexample: an empty-token RefreshToken call against a fresh
server does change the Rate Limiter state — the rate-limit check runs
before the empty-token validation and records a timestamp under the
empty-string key — refuting the claim that the call has no side effects
on the Rate Limiter. -/
theorem c3_counterexample_rate_limiter_mutated :
    (AuthServer.RefreshToken inMemoryOps c3s0 "" 5 "a" "r" 200 none).2.rateLimiter.requests "" ≠
      c3s0.rateLimiter.requests "" ∧
    (AuthServer.RefreshToken inMemoryOps c3s0 "" 5 "a" "r" 200 none).2.rateLimiter.requests "" = [5] ∧
    c3s0.rateLimiter.requests "" = [] ∧
    (AuthServer.RefreshToken inMemoryOps c3s0 "" 5 "a" "r" 200 none).1 =
      .err "refresh token is required" := by
  decide

/-- C3 (amended): an empty-token RefreshToken call is rejected without
touching the Token Store or the rotation queue, but the rate-limit check
runs first: the Rate Limiter is updated exactly as by `allow("")`, and
the rejection is the validation error when the limiter admits the call
(the rate-limit error otherwise). -/
theorem c3_empty_token_rejected :
    ∀ (σ : Type) (ops : TokenStorageOps σ) (s : AuthServer σ) (now : Int)
      (freshAuth freshRefresh : String) (status : Nat)
      (body : Option YandexTokenResponse),
      (AuthServer.RefreshToken ops s "" now freshAuth freshRefresh status body).2.storage =
        s.storage ∧
      (AuthServer.RefreshToken ops s "" now freshAuth freshRefresh status body).2.tokenUpdateQueue =
        s.tokenUpdateQueue ∧
      (AuthServer.RefreshToken ops s "" now freshAuth freshRefresh status body).2.rateLimiter =
        (s.rateLimiter.Allow "" now).2 ∧
      ((s.rateLimiter.Allow "" now).1 = true →
        (AuthServer.RefreshToken ops s "" now freshAuth freshRefresh status body).1 =
          .err "refresh token is required") ∧
      ((s.rateLimiter.Allow "" now).1 = false →
        (AuthServer.RefreshToken ops s "" now freshAuth freshRefresh status body).1 =
          .err "rate limit exceeded") := by
  intro σ ops s now fa fr status body
  by_cases hb : (s.rateLimiter.Allow "" now).1 = false
  · simp [AuthServer.RefreshToken, hb]
  · have hb1 : (s.rateLimiter.Allow "" now).1 = true := by
      cases h : (s.rateLimiter.Allow "" now).1
      · exact absurd h hb
      · rfl
    simp [AuthServer.RefreshToken, hb1]

/-- C3 witness: evaluation of the amended statement on a fresh server
whose limiter admits the call. -/
theorem c3_empty_token_rejected_witness :
    (AuthServer.RefreshToken inMemoryOps c3s0 "" 5 "a" "r" 200 none).2.storage = c3s0.storage ∧
    (AuthServer.RefreshToken inMemoryOps c3s0 "" 5 "a" "r" 200 none).2.tokenUpdateQueue =
      c3s0.tokenUpdateQueue ∧
    (AuthServer.RefreshToken inMemoryOps c3s0 "" 5 "a" "r" 200 none).2.rateLimiter =
      (c3s0.rateLimiter.Allow "" 5).2 ∧
    (AuthServer.RefreshToken inMemoryOps c3s0 "" 5 "a" "r" 200 none).1 =
      .err "refresh token is required" :=
  have h := c3_empty_token_rejected InMemoryTokenStorage inMemoryOps c3s0 5 "a" "r" 200 none
  ⟨h.1, h.2.1, h.2.2.1, h.2.2.2.1 (by decide)⟩

/-- C2 counterexample: a successful refresh of a Yandex session whose
upstream response omits the refresh token installs the previous upstream
refresh-token value "R" as the new key — not the freshly generated random
value ("FRESH"), refuting the claim that every rotation installs a
freshly generated key. -/
theorem c2_counterexample_yandex_key_not_fresh :
    (AuthServer.RefreshToken inMemoryOps c2s0 "K" 10 "FA" "FRESH" 200 (some c2resp)).2.tokenUpdateQueue.map
        tokenUpdateRequest.newToken = ["R"] ∧
    (AuthServer.RefreshToken inMemoryOps c2s0 "K" 10 "FA" "FRESH" 200 (some c2resp)).1 =
      .ok "A" "R" 110 ∧
    ("R" : String) ≠ generate_refresh_token "FRESH" := by
  decide

/-- C2 (amended): only for a non-delegated session does a successful
refresh enqueue the freshly generated random value as the new key; a
delegated (Yandex) session's new key is the upstream-provided value, so
it need not be fresh and can repeat an earlier (even deleted) key. -/
theorem c2_local_refresh_key_is_fresh :
    ∀ (s : AuthServer InMemoryTokenStorage) (k : String) (i : TokenInfo)
      (now : Int) (freshAuth freshRefresh : String) (status : Nat)
      (body : Option YandexTokenResponse),
      (s.rateLimiter.Allow k now).1 = true →
      k ≠ "" →
      GetTokenInfo s.storage k = .ok i →
      ¬ i.ExpiresAt < now →
      i.IsYandexUser = false →
      (AuthServer.RefreshToken inMemoryOps s k now freshAuth freshRefresh status body).1 =
        .ok (generate_auth_token i.PhoneNumber "" freshAuth) (generate_refresh_token freshRefresh)
          (now + 24 * 3600) ∧
      (AuthServer.RefreshToken inMemoryOps s k now freshAuth freshRefresh status body).2.tokenUpdateQueue.map
          tokenUpdateRequest.newToken =
        s.tokenUpdateQueue.map tokenUpdateRequest.newToken ++ [generate_refresh_token freshRefresh] := by
  intro s k i now fa fr status body hA hk hget hexp hY
  simp [AuthServer.RefreshToken, hA, hk, inMemoryOps, hget, hexp, hY,
    generate_auth_token, generate_refresh_token]

/-- C2 witness: evaluation of the amended statement on a live local
session under key "K". -/
theorem c2_local_refresh_key_is_fresh_witness :
    (AuthServer.RefreshToken inMemoryOps c2sLocal "K" 10 "FA" "FRESH" 200 none).1 =
      .ok (generate_auth_token cTokInfo.PhoneNumber "" "FA") (generate_refresh_token "FRESH")
        (10 + 24 * 3600) ∧
    (AuthServer.RefreshToken inMemoryOps c2sLocal "K" 10 "FA" "FRESH" 200 none).2.tokenUpdateQueue.map
        tokenUpdateRequest.newToken =
      c2sLocal.tokenUpdateQueue.map tokenUpdateRequest.newToken ++ [generate_refresh_token "FRESH"] :=
  c2_local_refresh_key_is_fresh c2sLocal "K" cTokInfo 10 "FA" "FRESH" 200 none
    (by decide) (by decide) (by rfl) (by decide) (by rfl)

/-- C9: SignUp and SignIn verify no credential of any kind — the generated
auth token ignores the phone number and password hash, and both handlers
succeed with the fresh token pair exactly when the storage put succeeds. -/
theorem c9_sign_handlers_no_verification :
    (∀ (p1 h1 p2 h2 rand : String),
       generate_auth_token p1 h1 rand = generate_auth_token p2 h2 rand) ∧
    (∀ (σ : Type) (ops : TokenStorageOps σ) (s : AuthServer σ)
       (phoneNumber passwordHash : String) (now : Int)
       (freshAuth freshRefresh : String) (st : σ),
       ops.store s.storage (generate_refresh_token freshRefresh)
           (signUpTokenInfo phoneNumber now) = .ok st →
       AuthServer.SignUp ops s phoneNumber passwordHash now freshAuth freshRefresh =
         (.ok freshAuth freshRefresh (now + 24 * 3600), { s with storage := st })) ∧
    (∀ (σ : Type) (ops : TokenStorageOps σ) (s : AuthServer σ)
       (phoneNumber passwordHash : String) (now : Int)
       (freshAuth freshRefresh : String) (st : σ),
       ops.store s.storage (generate_refresh_token freshRefresh)
           (signUpTokenInfo phoneNumber now) = .ok st →
       AuthServer.SignIn ops s phoneNumber passwordHash now freshAuth freshRefresh =
         (.ok freshAuth freshRefresh (now + 24 * 3600), { s with storage := st })) := by
  refine ⟨fun _ _ _ _ _ => rfl, ?_, ?_⟩
  · intro σ ops s p h now a r st hstore
    simp only [AuthServer.SignUp]
    rw [hstore]
    rfl
  · intro σ ops s p h now a r st hstore
    simp only [AuthServer.SignIn]
    rw [hstore]
    rfl

/-- C9 witness: evaluation on an empty store — sign-up and sign-in with
arbitrary credentials succeed, and the auth token is the same random
value for two different credential pairs. -/
theorem c9_sign_handlers_no_verification_witness :
    generate_auth_token "p1" "h1" "RAND" = generate_auth_token "p2" "h2" "RAND" ∧
    AuthServer.SignUp inMemoryOps c9s0 "P" "H" 0 "A" "R" =
      (.ok "A" "R" (0 + 24 * 3600),
       { c9s0 with storage := ⟨[("R", signUpTokenInfo "P" 0)], 10000⟩ }) ∧
    AuthServer.SignIn inMemoryOps c9s0 "P" "H" 0 "A" "R" =
      (.ok "A" "R" (0 + 24 * 3600),
       { c9s0 with storage := ⟨[("R", signUpTokenInfo "P" 0)], 10000⟩ }) :=
  ⟨c9_sign_handlers_no_verification.1 "p1" "h1" "p2" "h2" "RAND",
   c9_sign_handlers_no_verification.2.1 InMemoryTokenStorage inMemoryOps c9s0 "P" "H" 0 "A" "R"
     ⟨[("R", signUpTokenInfo "P" 0)], 10000⟩ (by rfl),
   c9_sign_handlers_no_verification.2.2 InMemoryTokenStorage inMemoryOps c9s0 "P" "H" 0 "A" "R"
     ⟨[("R", signUpTokenInfo "P" 0)], 10000⟩ (by rfl)⟩
